import Mathlib

/-!
Verification development for the papermark document conversion and
rasterization pipeline.  The definitions below are shallow embeddings of
the TypeScript sources:

* `chooseEncoding`, `persistPage`, `convertPdfPageToImage` embed
  `lib/mupdf/pdf-utils.ts` (`convertPdfPageToImage`).
* `jsRound`, `pageLoopGo`, `pageLoop`, `rasterPages`, `convertPdfToImage`
  embed `lib/local-processing/pdf-to-image.ts` (`convertPdfToImage`).
* `backoffDelay`, `loopGo`, `retryRun` embed the shared retry loop of
  `lib/local-processing/convert-cad-to-pdf.ts` (`convertCadToPdf`) and of
  `convertOfficeToPdf` in the unnamed source file (both loops are
  textually identical).
* `optimizeVideo` embeds `lib/local-processing/optimize-video.ts`.
* `uploadAndRasterize` embeds the version-creation flow of the
  `POST .../documents/:id/versions` handler chained with the final
  updates of `convertPdfToImage`.

External effects (fetch, MuPDF rendering, ffmpeg, object storage, the
relational store) are modelled by explicit parameters and by write
traces, so every definition is executable and every run deterministic.
-/

namespace Papermark

/-- `Math.round(num/den)` for nonnegative JavaScript numbers: round half
away from zero, i.e. `⌊num/den + 1/2⌋`. -/
def jsRound (num den : Nat) : Nat :=
  (2 * num + den) / (2 * den)

/-! ## Rasterizer: encoding selection (pdf-utils.ts lines 110-125)

The source renders a pixmap, takes `pngBuffer.byteLength` and
`jpegBuffer.byteLength` (JPEG quality 80) and keeps
`if (pngSize < jpegSize) png else jpeg`. -/

/-- Embeds the encoding choice of `convertPdfPageToImage`:
returns `(chosenFormat, chosenSize)`. -/
def chooseEncoding (pngSize jpegSize : Nat) : String × Nat :=
  if pngSize < jpegSize then ("png", pngSize) else ("jpeg", jpegSize)

/-! ## Rasterizer: page persistence (pdf-utils.ts lines 157-185) -/

/-- A `DocumentPage` row: `(versionId, pageNumber)` is the lookup key. -/
structure DocumentPage where
  id : Nat
  versionId : String
  pageNumber : Nat
  file : String
  storageType : String
  deriving DecidableEq, Repr

/-- The page table together with a fresh-id counter. -/
structure PageStore where
  pages : List DocumentPage
  nextId : Nat
  deriving DecidableEq, Repr

/-- `prisma.documentPage.findUnique({ where: { pageNumber_versionId } })`. -/
def findExistingPage (s : PageStore) (versionId : String) (pageNumber : Nat) :
    Option DocumentPage :=
  s.pages.find? (fun p => p.pageNumber == pageNumber && p.versionId == versionId)

/-- Number of rows stored under the key `(versionId, pageNumber)`. -/
def countKey (s : PageStore) (versionId : String) (pageNumber : Nat) : Nat :=
  s.pages.countP (fun p => p.pageNumber == pageNumber && p.versionId == versionId)

/-- The lookup-then-create step of `convertPdfPageToImage`: if a row with
the same `(pageNumber, versionId)` exists it is returned unchanged,
otherwise a new row is created. -/
def persistPage (s : PageStore) (versionId : String) (pageNumber : Nat)
    (fileData storageType : String) : PageStore × DocumentPage :=
  match findExistingPage s versionId pageNumber with
  | some existing => (s, existing)
  | none =>
    let newPage : DocumentPage :=
      ⟨s.nextId, versionId, pageNumber, fileData, storageType⟩
    (⟨s.pages ++ [newPage], s.nextId + 1⟩, newPage)

/-- Abstract result of rendering one page: the byte lengths of the two
candidate encodings and the corresponding payloads. -/
structure RenderInput where
  pngSize : Nat
  jpegSize : Nat
  pngData : String
  jpegData : String
  deriving DecidableEq, Repr

/-- Embeds `convertPdfPageToImage` of `lib/mupdf/pdf-utils.ts`: choose the
encoding by byte size, upload the chosen payload, then look up / create
the `DocumentPage` row. -/
def convertPdfPageToImage (s : PageStore) (versionId : String) (pageNumber : Nat)
    (r : RenderInput) : PageStore × DocumentPage :=
  let fmt := (chooseEncoding r.pngSize r.jpegSize).1
  let chosen := if r.pngSize < r.jpegSize then r.pngData else r.jpegData
  persistPage s versionId pageNumber chosen fmt

/-! ## Rasterization run (lib/local-processing/pdf-to-image.ts)

`convertPdfToImage` is modelled as a pure function from an environment
describing the answers of its collaborators (metadata store, storage
gateway, MuPDF probe, per-page conversion) to a record of its observable
behaviour: the percentages passed to `updateProgress` in order, the pages
attempted and persisted, the final version update and the run outcome. -/

/-- How a pipeline-stage run ended: an early `return`, a thrown error,
or success. -/
inductive RunOutcome where
  | returnedEarly
  | threw
  | success
  deriving DecidableEq, Repr

/-- The fields `convertPdfToImage` selects from the `DocumentVersion`
row: `file`, `storageType`, `numPages`. -/
structure VersionInfo where
  file : String
  storageType : String
  numPages : Option Nat
  deriving DecidableEq, Repr

/-- Collaborator answers for one `convertPdfToImage` run. -/
structure RasterEnv where
  /-- Result of the `documentVersion.findUnique` lookup. -/
  version? : Option VersionInfo
  /-- Result of `getFile` (`null`/empty modelled as `none`). -/
  signedUrl? : Option String
  /-- Result of `getPdfPageCount`: a thrown error or a page count. -/
  probeResult : Except Unit Nat
  /-- Whether `convertPdfPageToImage` succeeds for a given page number. -/
  pageOk : Nat → Bool
  /-- The optional `versionNumber` payload field. -/
  versionNumber? : Option Nat

/-- Observable behaviour of the page loop of `convertPdfToImage`. -/
structure LoopResult where
  /-- Percentages reported inside the loop, in order. -/
  progress : List Nat
  /-- Pages for which `convertPdfPageToImage` was invoked, in order. -/
  attempted : List Nat
  /-- Pages whose conversion succeeded (and whose row is persisted). -/
  persisted : List Nat
  /-- Value of `currentPage` when the loop exits. -/
  currentPage : Nat
  /-- Value of `conversionWithoutError` when the loop exits. -/
  ok : Bool
  deriving DecidableEq, Repr

/-- The `for (i = 0; i < numPages; ++i)` loop of `convertPdfToImage`,
processing pages `k, k+1, ...` with `fuel` iterations left.  Each
iteration attempts page `k` and then reports
`Math.round(currentPage / numPages * 100)` whether or not the page
succeeded; a failed page stops the loop. -/
def pageLoopGo (pageOk : Nat → Bool) (numPages : Nat) (k : Nat) :
    Nat → LoopResult
  | 0 => ⟨[], [], [], k - 1, true⟩
  | fuel + 1 =>
    if pageOk k then
      let rest := pageLoopGo pageOk numPages (k + 1) fuel
      ⟨jsRound (k * 100) numPages :: rest.progress, k :: rest.attempted,
        k :: rest.persisted, rest.currentPage, rest.ok⟩
    else
      ⟨[jsRound (k * 100) numPages], [k], [], k, false⟩

/-- The page loop started at page 1 over `numPages` pages. -/
def pageLoop (pageOk : Nat → Bool) (numPages : Nat) : LoopResult :=
  pageLoopGo pageOk numPages 1 numPages

/-- Observable behaviour of a whole `convertPdfToImage` run. -/
structure RasterRun where
  /-- All percentages passed to `updateProgress`, in order. -/
  progress : List Nat
  /-- Pages for which `convertPdfPageToImage` was invoked. -/
  attempted : List Nat
  /-- Pages persisted by the run. -/
  persisted : List Nat
  /-- `some n` iff the final
  `update { numPages := n, hasPages := true, isPrimary := true }` ran. -/
  finalUpdate : Option Nat
  /-- Whether the `updateMany` demoting sibling versions ran. -/
  demoted : Bool
  /-- The page count the loop actually used, when the loop was reached. -/
  usedNumPages : Option Nat
  /-- Whether the count came from the `getPdfPageCount` probe. -/
  probed : Bool
  /-- How the run ended. -/
  outcome : RunOutcome
  deriving DecidableEq, Repr

/-- Tail of `convertPdfToImage` once the page count `numPages` is known:
the page loop, the failure early-return, and the success-path updates
(`hasPages`, sibling demotion when `versionNumber` is truthy, the
revalidation fetch and the trailing progress reports). -/
def rasterPages (env : RasterEnv) (numPages : Nat) (probed : Bool) : RasterRun :=
  let loop := pageLoop env.pageOk numPages
  if loop.ok then
    let demoted := match env.versionNumber? with
      | some vn => vn != 0
      | none => false
    ⟨[0, 10, 20] ++ loop.progress ++ [90, 95, 100], loop.attempted,
      loop.persisted, some numPages, demoted, some numPages, probed, .success⟩
  else
    ⟨[0, 10, 20] ++ loop.progress ++ [jsRound (loop.currentPage * 100) numPages],
      loop.attempted, loop.persisted, none, false, some numPages, probed,
      .returnedEarly⟩

/-- Embeds `convertPdfToImage` of `lib/local-processing/pdf-to-image.ts`.
The stored count is re-probed when it is `null`, `0` or `1` (the JS
condition `!numPages || numPages === 1`). -/
def convertPdfToImage (env : RasterEnv) : RasterRun :=
  match env.version? with
  | none => ⟨[0, 0], [], [], none, false, none, false, .returnedEarly⟩
  | some dv =>
    match env.signedUrl? with
    | none => ⟨[0, 10, 0], [], [], none, false, none, false, .returnedEarly⟩
    | some _ =>
      let needsProbe := match dv.numPages with
        | none => true
        | some n => n == 0 || n == 1
      if needsProbe then
        match env.probeResult with
        | .error _ => ⟨[0, 10], [], [], none, false, none, true, .threw⟩
        | .ok m =>
          if m < 1 then
            ⟨[0, 10, 0], [], [], none, false, none, true, .returnedEarly⟩
          else rasterPages env m true
      else rasterPages env (dv.numPages.getD 0) false

/-! ## Converter retry loop (convert-cad-to-pdf.ts lines 122-180 and the
identical loop of `convertOfficeToPdf` in the unnamed source file)

The loop keeps `retryCount` with `maxRetries = 3`.  Each iteration
performs one `fetch`; an `ok` response breaks, a 5xx response increments
`retryCount`, sleeps `min(1000 * 2 ** retryCount, 30000)` and loops, any
other non-ok response breaks, and a thrown network error increments
`retryCount`, rethrows when `retryCount >= 3` and otherwise sleeps the
same delay and loops.  After the loop a missing or non-ok response
throws `Conversion failed: ...`. -/

/-- Outcome of a single `fetch` of the conversion capability. -/
inductive FetchOutcome where
  /-- `response.ok` is true. -/
  | respOk
  /-- `response.ok` is false with the given HTTP status. -/
  | httpError (status : Nat)
  /-- `fetch` threw (network/transport failure). -/
  | networkError
  deriving DecidableEq, Repr

/-- `min(1000 * 2 ** retryCount, 30000)` of the converters. -/
def backoffDelay (retryCount : Nat) : Nat :=
  Nat.min (1000 * 2 ^ retryCount) 30000

/-- How the retry loop exited. -/
inductive LoopExit where
  /-- Broke with an ok response. -/
  | gotOk
  /-- Broke on a non-ok, non-5xx response. -/
  | gotPermanent (status : Nat)
  /-- The while-condition `retryCount < 3` became false (last response
  was a 5xx). -/
  | exhausted
  /-- A network error was rethrown after the 3rd failed attempt. -/
  | threwNetwork
  deriving DecidableEq, Repr

/-- One execution of the `while (retryCount < maxRetries)` loop against a
list of successive fetch outcomes; returns the number of fetches made,
the backoff delays slept in order, and the exit kind. -/
def loopGo : List FetchOutcome → Nat → Nat × List Nat × LoopExit
  | _, _ + 3 => (0, [], .exhausted)
  | [], _ => (0, [], .threwNetwork)
  | o :: rest, retryCount =>
    match o with
    | .respOk => (1, [], .gotOk)
    | .httpError s =>
      if 500 ≤ s ∧ s < 600 then
        let d := backoffDelay (retryCount + 1)
        let next := loopGo rest (retryCount + 1)
        (next.1 + 1, d :: next.2.1, next.2.2)
      else (1, [], .gotPermanent s)
    | .networkError =>
      if retryCount + 1 ≥ 3 then (1, [], .threwNetwork)
      else
        let d := backoffDelay (retryCount + 1)
        let next := loopGo rest (retryCount + 1)
        (next.1 + 1, d :: next.2.1, next.2.2)

/-- Terminal result of the conversion request phase of a converter. -/
inductive ConvResult where
  /-- The loop produced an ok response; the converter proceeds. -/
  | success
  /-- `throw new Error("Conversion failed: ...")` after the loop. -/
  | conversionFailed
  /-- The raw network error was rethrown from inside the loop. -/
  | networkThrown
  deriving DecidableEq, Repr

/-- Observable behaviour of the conversion request phase. -/
structure RetryRun where
  /-- Number of conversion attempts (fetches) made. -/
  attempts : Nat
  /-- Backoff delays slept, in order, in milliseconds. -/
  delays : List Nat
  /-- How the phase ended. -/
  result : ConvResult
  deriving DecidableEq, Repr

/-- Embeds the retry loop of `convertCadToPdf` / `convertOfficeToPdf`
followed by the `!conversionResponse || !conversionResponse.ok` check. -/
def retryRun (outcomes : List FetchOutcome) : RetryRun :=
  let r := loopGo outcomes 0
  { attempts := r.1
    delays := r.2.1
    result :=
      match r.2.2 with
      | .gotOk => .success
      | .gotPermanent _ => .conversionFailed
      | .exhausted => .conversionFailed
      | .threwNetwork => .networkThrown }

/-! ## Video optimizer (lib/local-processing/optimize-video.ts) -/

/-- A write to the `DocumentVersion` row issued by the optimizer. -/
inductive DbWrite where
  /-- `update { length: duration }` after the probe. -/
  | setLength (duration : Nat)
  /-- `update { file: data }` after the upload. -/
  | setFile (file : String)
  deriving DecidableEq, Repr

/-- The `DocumentVersion` fields relevant to the optimizer. -/
structure VideoVersion where
  file : String
  originalFile : String
  type : String
  storageType : String
  length : Option Nat
  numPages : Option Nat
  deriving DecidableEq, Repr

/-- Apply one write to a version row. -/
def applyWrite (v : VideoVersion) : DbWrite → VideoVersion
  | .setLength d => { v with length := some d }
  | .setFile f => { v with file := f }

/-- Apply a write trace left to right. -/
def applyWrites (v : VideoVersion) (ws : List DbWrite) : VideoVersion :=
  ws.foldl applyWrite v

/-- The skip threshold `500 * 1024 * 1024` of `optimizeVideo`. -/
def videoSizeLimit : Nat := 500 * 1024 * 1024

/-- Collaborator answers for one `optimizeVideo` run. -/
structure OptimizeEnv where
  /-- The `fileSize` payload field. -/
  fileSize : Nat
  /-- `Math.round(metadata.format.duration)` from the ffprobe step. -/
  duration : Nat
  /-- Probed video width (decides the 1920-pixel downscale filter). -/
  width : Nat
  /-- Whether the ffmpeg re-encode succeeds. -/
  ffmpegOk : Bool
  /-- The `percent` values of the ffmpeg progress events, in order. -/
  ffmpegPercents : List Nat
  /-- `data` returned by `streamFileServer` (`none` models a missing
  path, which throws). -/
  uploadData : Option String
  deriving Repr

/-- Observable behaviour of one `optimizeVideo` run. -/
structure OptimizeRun where
  /-- All percentages passed to `updateProgress`, in order. -/
  progress : List Nat
  /-- Writes to the version row, in order. -/
  writes : List DbWrite
  /-- Whether the size guard skipped re-encoding. -/
  skipped : Bool
  /-- Whether the downscale filter was applied (width > 1920). -/
  scaled : Bool
  /-- How the run ended. -/
  outcome : RunOutcome
  deriving DecidableEq, Repr

/-- Embeds `optimizeVideo` of `lib/local-processing/optimize-video.ts`:
probe, persist duration, size guard (`fileSize > 500 * 1024 * 1024`
skips), re-encode with progress mapped into the 40-80% band
(`Math.round(40 + percent * 0.4)`), upload, persist file reference. -/
def optimizeVideo (env : OptimizeEnv) : OptimizeRun :=
  let pre := [0, 10, 20, 30]
  let probeWrites := [DbWrite.setLength env.duration]
  if env.fileSize > videoSizeLimit then
    { progress := pre ++ [100], writes := probeWrites, skipped := true
      scaled := false, outcome := .success }
  else
    let scaled := env.width > 1920
    let encodeProg := env.ffmpegPercents.map (fun p => jsRound (400 + 4 * p) 10)
    if env.ffmpegOk then
      match env.uploadData with
      | none =>
        { progress := pre ++ [40] ++ encodeProg ++ [80], writes := probeWrites
          skipped := false, scaled := scaled, outcome := .threw }
      | some dataPath =>
        { progress := pre ++ [40] ++ encodeProg ++ [80, 90, 100]
          writes := probeWrites ++ [DbWrite.setFile dataPath]
          skipped := false, scaled := scaled, outcome := .success }
    else
      { progress := pre ++ [40] ++ encodeProg, writes := probeWrites
        skipped := false, scaled := scaled, outcome := .threw }

/-! ## Version creation and the primary flag

Embeds the `POST .../documents/:id/versions` handler (create the new
version with `isPrimary: true`, then `updateMany` every other version of
the document to `isPrimary: false` — the handler issues this update
twice) chained with the success tail of `convertPdfToImage` (set
`numPages`, `hasPages: true`, `isPrimary: true` on the rasterized
version, then when `versionNumber` is truthy demote every version of the
document whose `versionNumber` differs). -/

/-- A `DocumentVersion` row for the primary-flag model. -/
structure DocVersion where
  id : Nat
  documentId : Nat
  versionNumber : Nat
  isPrimary : Bool
  hasPages : Bool
  numPages : Option Nat
  deriving DecidableEq, Repr

/-- `versionNumber` of the most recently created version of the document
(the handler's `orderBy createdAt desc, take 1`), defaulting to 1.  The
state list is kept most-recent-first. -/
def latestVersionNumber (st : List DocVersion) (docId : Nat) : Nat :=
  match st.find? (fun v => v.documentId == docId) with
  | some v => v.versionNumber
  | none => 1

/-- Effect of `updateMany { documentId, id: { not: vid } }
{ isPrimary: false }` on one row. -/
def demoteRowById (docId vid : Nat) (w : DocVersion) : DocVersion :=
  if w.documentId == docId && w.id != vid then { w with isPrimary := false } else w

/-- `updateMany { documentId, id: { not: vid } } { isPrimary: false }`. -/
def demoteOthersById (st : List DocVersion) (docId vid : Nat) : List DocVersion :=
  st.map (demoteRowById docId vid)

/-- Effect of the success update of `convertPdfToImage`
(`update { numPages, hasPages: true, isPrimary: true }` on `vid`) on one
row. -/
def finalizeRow (vid n : Nat) (w : DocVersion) : DocVersion :=
  if w.id == vid then
    { w with numPages := some n, hasPages := true, isPrimary := true }
  else w

/-- The success update of `convertPdfToImage` on the table. -/
def finalizeRaster (st : List DocVersion) (vid n : Nat) : List DocVersion :=
  st.map (finalizeRow vid n)

/-- Effect of `updateMany { documentId, versionNumber: { not: vn } }
{ isPrimary: false }` on one row. -/
def demoteRowByVN (docId vn : Nat) (w : DocVersion) : DocVersion :=
  if w.documentId == docId && w.versionNumber != vn then
    { w with isPrimary := false }
  else w

/-- `updateMany { documentId, versionNumber: { not: vn } }
{ isPrimary: false }`. -/
def demoteOthersByVersionNumber (st : List DocVersion) (docId vn : Nat) :
    List DocVersion :=
  st.map (demoteRowByVN docId vn)

/-- End-to-end flow for an uploaded PDF: the handler creates the version,
demotes siblings by id (twice, as in the source), and a successful
rasterization run finalizes the version and, `versionNumber` being
truthy, demotes siblings by version number. -/
def uploadAndRasterize (st : List DocVersion) (docId newId n : Nat) :
    List DocVersion :=
  let vn := latestVersionNumber st docId + 1
  let v : DocVersion := ⟨newId, docId, vn, true, false, none⟩
  let st1 := v :: st
  let st2 := demoteOthersById st1 docId newId
  let st3 := demoteOthersById st2 docId newId
  let st4 := finalizeRaster st3 newId n
  if vn != 0 then demoteOthersByVersionNumber st4 docId vn else st4

/-- Versions of `docId` carrying `isPrimary = true`. -/
def countPrimary (st : List DocVersion) (docId : Nat) : Nat :=
  st.countP (fun v => v.documentId == docId && v.isPrimary)

/-! ## Concrete runs used by counterexamples and witnesses -/

/-- A 5-page rasterization run whose page 3 fails: the version row
exists with no stored page count, the signed URL resolves, the probe
reports 5 pages, and `convertPdfPageToImage` fails exactly on page 3. -/
def failAt3Env : RasterEnv :=
  ⟨some ⟨"f", "s", none⟩, some "u", Except.ok 5, fun k => !(k == 3), some 2⟩

/-- A fully successful single-page rasterization run (stored count 1,
probe returns 1, every page converts). -/
def onePageEnv : RasterEnv :=
  ⟨some ⟨"f", "s", some 1⟩, some "u", Except.ok 1, fun _ => true, some 2⟩

/-- A successful run over a version whose stored count is 1 while the
probe reports 4 pages. -/
def storedOneEnv : RasterEnv :=
  ⟨some ⟨"f", "s", some 1⟩, some "u", Except.ok 4, fun _ => true, none⟩

/-- A successful run over a version whose stored count is 3 (probe would
report 4, but must not be consulted). -/
def storedThreeEnv : RasterEnv :=
  ⟨some ⟨"f", "s", some 3⟩, some "u", Except.ok 4, fun _ => true, none⟩

/-- A document-7 table with two old versions (the newer one primary) and
an unrelated document-8 version. -/
def demoSt : List DocVersion :=
  [⟨2, 7, 2, true, false, none⟩, ⟨1, 7, 1, false, true, some 3⟩,
    ⟨9, 8, 1, true, true, some 2⟩]

/-- A skip-path video run: 700 MiB source, probed duration 33s. -/
def bigVideoEnv : OptimizeEnv :=
  ⟨700 * 1024 * 1024, 33, 1280, true, [], some "p"⟩

/-- A version row before video optimization. -/
def videoV0 : VideoVersion :=
  ⟨"f", "o", "video", "S3_PATH", none, none⟩

/-! ## Helper lemmas -/

/-- `jsRound` is monotone in the numerator. -/
theorem jsRound_mono {a b : Nat} (den : Nat) (h : a ≤ b) :
    jsRound a den ≤ jsRound b den := by
  unfold jsRound
  exact Nat.div_le_div_right (by omega)

/-- Every percentage the page loop reports from page `k` on is at least
the percentage of any page `j ≤ k`. -/
theorem pageLoopGo_progress_lb (p : Nat → Bool) (n : Nat) :
    ∀ (fuel k j : Nat), j ≤ k →
      ∀ x ∈ (pageLoopGo p n k fuel).progress, jsRound (j * 100) n ≤ x := by
  intro fuel
  induction fuel with
  | zero => intro k j _ x hx; simp [pageLoopGo] at hx
  | succ fuel ih =>
    intro k j hjk x hx
    unfold pageLoopGo at hx
    by_cases hp : p k
    · simp only [hp, if_true] at hx
      rcases List.mem_cons.mp hx with rfl | hx
      · exact jsRound_mono n (by omega)
      · exact ih (k + 1) j (by omega) x hx
    · simp only [hp, Bool.false_eq_true, if_false, List.mem_singleton] at hx
      subst hx
      exact jsRound_mono n (by omega)

/-- `rasterPages` records its `probed` argument unchanged. -/
theorem rasterPages_probed (env : RasterEnv) (np : Nat) (pr : Bool) :
    (rasterPages env np pr).probed = pr := by
  unfold rasterPages
  by_cases h : (pageLoop env.pageOk np).ok <;> simp [h]

/-- `rasterPages` uses exactly the page count it is given. -/
theorem rasterPages_used (env : RasterEnv) (np : Nat) (pr : Bool) :
    (rasterPages env np pr).usedNumPages = some np := by
  unfold rasterPages
  by_cases h : (pageLoop env.pageOk np).ok <;> simp [h]

/-- Composite effect of one upload-and-rasterize flow on an old row that
does not collide with the new id: the row cannot be left primary for the
document. -/
theorem oldRow_not_primary (docId newId vn n : Nat) (w : DocVersion)
    (hw : w.id ≠ newId) :
    ((demoteRowByVN docId vn
        (finalizeRow newId n
          (demoteRowById docId newId (demoteRowById docId newId w)))).documentId
        == docId &&
      (demoteRowByVN docId vn
        (finalizeRow newId n
          (demoteRowById docId newId (demoteRowById docId newId w)))).isPrimary)
      = false := by
  unfold demoteRowById finalizeRow demoteRowByVN
  by_cases hd : w.documentId = docId
  · by_cases hvn : w.versionNumber = vn <;>
      simp [hd, hw, hvn, beq_iff_eq, bne_iff_ne]
  · simp [hd, hw, beq_iff_eq, bne_iff_ne]

/-- Composite effect of one upload-and-rasterize flow on the freshly
created row: it ends up finalized and primary. -/
theorem newRow_spec (docId newId vn n : Nat) :
    demoteRowByVN docId vn
        (finalizeRow newId n
          (demoteRowById docId newId
            (demoteRowById docId newId ⟨newId, docId, vn, true, false, none⟩)))
      = ⟨newId, docId, vn, true, true, some n⟩ := by
  unfold demoteRowById finalizeRow demoteRowByVN
  simp

/-! ## Claim theorems -/

/-- C1 counterexample: when the PNG and JPEG byte lengths are equal
(`pngSize == jpegSize`, here both 100), `convertPdfPageToImage` selects
the lossy JPEG encoding, not the lossless PNG claimed: the strict `<`
comparison sends ties to the `else` branch. -/
theorem chooseEncoding_tie_selects_jpeg :
    (chooseEncoding 100 100).1 = "jpeg" ∧ (chooseEncoding 100 100).1 ≠ "png" := by
  constructor <;> decide

/-- C1 (amended): the rasterizer dual-encodes each pixmap as PNG and
JPEG (quality 80) and persists whichever encoding is smaller, but a tie
(`pngSize == jpegSize`) selects the lossy JPEG encoding, because the
strict `<` comparison fails on equality. -/
theorem chooseEncoding_selects_smaller (pngSize jpegSize : Nat) :
    (chooseEncoding pngSize jpegSize).2 = Nat.min pngSize jpegSize ∧
      ((chooseEncoding pngSize jpegSize).1 = "png" ↔ pngSize < jpegSize) := by
  by_cases h : pngSize < jpegSize <;> simp [chooseEncoding, h] <;> omega

/-- C2 counterexample: in the 5-page run whose page 3 fails, the last
observed progress update reports 60% (= `round(3/5 * 100)`, emitted for
the failing page), not the claimed 40%. -/
theorem rasterFailAt3_last_progress_not_40 :
    (convertPdfToImage failAt3Env).progress.getLast? = some 60 ∧
      (convertPdfToImage failAt3Env).progress.getLast? ≠ some 40 := by
  constructor <;> decide

/-- C2 (amended): if rasterization of a 5-page document fails at page 3,
no page after page 3 is attempted, pages 1 and 2 remain persisted, the
version's page count is left unset and `hasPages` remains `false`, and
the last observed progress update reports 60% — the loop reports
`round(currentPage/numPages * 100)` even for the failing page, and the
error path repeats that value. -/
theorem rasterFailAt3_run :
    (convertPdfToImage failAt3Env).attempted = [1, 2, 3] ∧
      (convertPdfToImage failAt3Env).persisted = [1, 2] ∧
      (convertPdfToImage failAt3Env).finalUpdate = none ∧
      (convertPdfToImage failAt3Env).outcome = RunOutcome.returnedEarly ∧
      (convertPdfToImage failAt3Env).progress = [0, 10, 20, 20, 40, 60, 60] := by
  refine ⟨?_, ?_, ?_, ?_, ?_⟩ <;> decide

/-- C3 counterexample: a video whose byte size is exactly 500 MiB is NOT
skipped — the guard is `fileSize > 500 * 1024 * 1024`, strict, so the
claimed inclusive-skip boundary is wrong. -/
theorem optimizeVideo_at_limit_not_skipped :
    (optimizeVideo ⟨videoSizeLimit, 10, 1280, true, [], some "p"⟩).skipped
      = false := by
  decide

/-- C3 (amended): the optimizer skips re-encoding exactly when the byte
size strictly exceeds 500 MiB; at exactly 500 MiB — and a fortiori one
byte under — re-encoding proceeds, and one byte over skips. -/
theorem optimizeVideo_skip_iff (env : OptimizeEnv) :
    (optimizeVideo env).skipped = true ↔ videoSizeLimit < env.fileSize := by
  unfold optimizeVideo
  by_cases h : env.fileSize > videoSizeLimit
  · simp [h]
  · cases hu : env.uploadData <;> cases hf : env.ffmpegOk <;> simp [h, hu, hf]

/-- C8: on the skip path of the size guard, the probed duration has
already been written to the version (it is written on every path, before
the guard), the run reports success, and the only change to the version
row is its `length` — the file reference and every other field are
unchanged.  Stated via the write trace: the skip path writes exactly
`setLength duration`, and applying that trace to any version row only
replaces `length`. -/
theorem optimizeVideo_skip_persists_duration (env : OptimizeEnv)
    (v : VideoVersion) (h : videoSizeLimit < env.fileSize) :
    DbWrite.setLength env.duration ∈ (optimizeVideo env).writes ∧
      (optimizeVideo env).writes = [DbWrite.setLength env.duration] ∧
      (optimizeVideo env).outcome = RunOutcome.success ∧
      (optimizeVideo env).skipped = true ∧
      applyWrites v (optimizeVideo env).writes = { v with length := some env.duration } := by
  have hgt : env.fileSize > videoSizeLimit := h
  refine ⟨?_, ?_, ?_, ?_, ?_⟩ <;>
    simp [optimizeVideo, hgt, applyWrites, applyWrite]

/-- C8 witness: the 700 MiB run persists duration 33 and nothing else. -/
theorem optimizeVideo_skip_persists_duration_witness :
    applyWrites videoV0 (optimizeVideo bigVideoEnv).writes
        = { videoV0 with length := some 33 } ∧
      (optimizeVideo bigVideoEnv).skipped = true := by
  have h := optimizeVideo_skip_persists_duration bigVideoEnv videoV0 (by decide)
  exact ⟨h.2.2.2.2, h.2.2.2.1⟩

/-- C4 counterexample: facing three successive HTTP-503 responses the
loop makes 3 attempts, but its delays are 2000, 4000 and 8000 ms — no
wait of 1000 ms ever occurs (the delay is computed from the
post-increment retry count), the third delay is slept although no retry
follows it, and the total wait is 14000 ms, not `1000 + 2000 + ...`. -/
theorem retryRun_total_wait_counterexample :
    retryRun [.httpError 503, .httpError 503, .httpError 503]
        = ⟨3, [2000, 4000, 8000], .conversionFailed⟩ ∧
      1000 ∉ (retryRun [.httpError 503, .httpError 503, .httpError 503]).delays ∧
      (retryRun [.httpError 503, .httpError 503, .httpError 503]).delays.sum
        = 14000 := by
  refine ⟨?_, ?_, ?_⟩ <;> decide

/-- C4 (amended): a converter facing only transient failures makes
exactly 3 conversion attempts; the wait before the k-th retry is
`min(1000ms * 2^k, 30000ms)` with k the post-increment retry count, so
the waits are 2000 ms and 4000 ms (never 1000 ms).  On an all-5xx run an
additional 8000 ms wait is slept after the 3rd failed attempt before the
loop exits and a conversion-failed error is thrown (total wait
14000 ms); on an all-network-error run the 3rd failure is rethrown
immediately (total wait 6000 ms).  No further retry happens either
way. -/
theorem retryRun_transient_three_attempts (s : Nat) (h5 : 500 ≤ s)
    (h6 : s < 600) :
    retryRun [.httpError s, .httpError s, .httpError s]
        = ⟨3, [2000, 4000, 8000], .conversionFailed⟩ ∧
      retryRun [.networkError, .networkError, .networkError]
        = ⟨3, [2000, 4000], .networkThrown⟩ := by
  constructor
  · have hc : 500 ≤ s ∧ s < 600 := ⟨h5, h6⟩
    simp [retryRun, loopGo, hc, backoffDelay]
  · decide

/-- C4 witness: the amended statement at status 503. -/
theorem retryRun_transient_three_attempts_witness :
    retryRun [.httpError 503, .httpError 503, .httpError 503]
        = ⟨3, [2000, 4000, 8000], .conversionFailed⟩ ∧
      retryRun [.networkError, .networkError, .networkError]
        = ⟨3, [2000, 4000], .networkThrown⟩ :=
  retryRun_transient_three_attempts 503 (by decide) (by decide)

/-- C7: a non-ok response whose status is outside the 5xx range is
permanent — the loop breaks without incrementing the retry count, no
delay is slept and no further fetch happens, and the converter throws
its conversion-failed error. -/
theorem retryRun_permanent_aborts (s : Nat) (rest : List FetchOutcome)
    (h : ¬(500 ≤ s ∧ s < 600)) :
    retryRun (.httpError s :: rest) = ⟨1, [], .conversionFailed⟩ := by
  simp [retryRun, loopGo, h]

/-- C7 witness: an HTTP 404 aborts after exactly one attempt even though
more responses were available. -/
theorem retryRun_permanent_aborts_witness :
    retryRun [.httpError 404, .respOk, .respOk] = ⟨1, [], .conversionFailed⟩ :=
  retryRun_permanent_aborts 404 [.respOk, .respOk] (by decide)

/-- C6: page rasterization is idempotent at the `DocumentPage` level.
If a row for `(versionId, pageNumber)` already exists it is returned
unchanged and the store is untouched; starting from a store with no row
for the pair, a second invocation returns exactly the first invocation's
result (store and row unchanged) and the store holds exactly one row for
the pair. -/
theorem convertPdfPageToImage_idempotent (s : PageStore) (vid : String)
    (n : Nat) (r : RenderInput) :
    (∀ p, findExistingPage s vid n = some p →
      convertPdfPageToImage s vid n r = (s, p)) ∧
    (findExistingPage s vid n = none →
      convertPdfPageToImage (convertPdfPageToImage s vid n r).1 vid n r
          = convertPdfPageToImage s vid n r ∧
        countKey (convertPdfPageToImage s vid n r).1 vid n = 1) := by
  constructor
  · intro p hp
    simp [convertPdfPageToImage, persistPage, hp]
  · intro h
    have hall := List.find?_eq_none.mp h
    have hfind2 : ∀ d t : String,
        findExistingPage ⟨s.pages ++ [⟨s.nextId, vid, n, d, t⟩], s.nextId + 1⟩
            vid n = some ⟨s.nextId, vid, n, d, t⟩ := by
      intro d t
      unfold findExistingPage at h ⊢
      simp [List.find?_append, h]
    constructor
    · simp only [convertPdfPageToImage, persistPage, h]
      simp [hfind2]
    · simp only [convertPdfPageToImage, persistPage, h]
      simp only [countKey, List.countP_append]
      rw [List.countP_eq_zero.mpr hall]
      simp

/-- C6 witness: a store already holding the row for `("v", 1)` returns
it unchanged, and from the empty store two invocations leave exactly one
row for the pair. -/
theorem convertPdfPageToImage_idempotent_witness :
    convertPdfPageToImage ⟨[⟨0, "v", 1, "d", "png"⟩], 1⟩ "v" 1 ⟨5, 9, "P", "J"⟩
        = (⟨[⟨0, "v", 1, "d", "png"⟩], 1⟩, ⟨0, "v", 1, "d", "png"⟩) ∧
      countKey (convertPdfPageToImage ⟨[], 0⟩ "v" 1 ⟨5, 9, "P", "J"⟩).1 "v" 1
        = 1 :=
  ⟨(convertPdfPageToImage_idempotent ⟨[⟨0, "v", 1, "d", "png"⟩], 1⟩ "v" 1
      ⟨5, 9, "P", "J"⟩).1 ⟨0, "v", 1, "d", "png"⟩ (by decide),
    ((convertPdfPageToImage_idempotent ⟨[], 0⟩ "v" 1 ⟨5, 9, "P", "J"⟩).2
      (by decide)).2⟩

/-- C9 counterexample: even the fully successful single-page
rasterization run reports the percentage sequence
`[0, 10, 20, 100, 90, 95, 100]`, which is not monotonically
non-decreasing — the 90% "Enabling pages" update follows the 100%
per-page update. -/
theorem raster_progress_not_monotone :
    ¬ List.Pairwise (· ≤ ·) (convertPdfToImage onePageEnv).progress ∧
      (convertPdfToImage onePageEnv).progress = [0, 10, 20, 100, 90, 95, 100] := by
  constructor <;> decide

/-- The page-loop percentages are sorted from any start page. -/
theorem pageLoopGo_progress_sorted (p : Nat → Bool) (n : Nat) :
    ∀ (fuel k : Nat), List.Pairwise (· ≤ ·) (pageLoopGo p n k fuel).progress := by
  intro fuel
  induction fuel with
  | zero => intro k; simp [pageLoopGo]
  | succ fuel ih =>
    intro k
    unfold pageLoopGo
    by_cases hp : p k
    · simp only [hp, if_true]
      refine List.pairwise_cons.mpr ⟨?_, ih (k + 1)⟩
      intro x hx
      exact pageLoopGo_progress_lb p n fuel (k + 1) k (by omega) x hx
    · simp [hp]

/-- C9 (amended): within the page-processing loop of a rasterization run
the reported percentages are monotonically non-decreasing (page k
reports `round(k/numPages * 100)`, monotone in k, repeated unchanged on
the failure exit), but a rasterization stage run as a whole is not
monotonically non-decreasing even on its success path: 90% and 95% are
reported after the loop's final 100%. -/
theorem pageLoop_progress_monotone (pageOk : Nat → Bool) (numPages : Nat) :
    List.Pairwise (· ≤ ·) (pageLoop pageOk numPages).progress :=
  pageLoopGo_progress_sorted pageOk numPages numPages 1

/-- C10: `convertPdfToImage` re-probes the page count not only when the
stored `numPages` is null but also when it equals exactly 1 (the JS
condition `!numPages || numPages === 1`); whenever the stored count is 1
(or null) the count actually used is the freshly probed value, and a
stored count of 2 or more is used as-is without probing. -/
theorem convertPdfToImage_reprobes (env : RasterEnv) (dv : VersionInfo)
    (u : String) (m : Nat) (hv : env.version? = some dv)
    (hu : env.signedUrl? = some u) (hp : env.probeResult = Except.ok m)
    (hm : 1 ≤ m) :
    (dv.numPages = none →
      (convertPdfToImage env).probed = true ∧
        (convertPdfToImage env).usedNumPages = some m) ∧
    (dv.numPages = some 1 →
      (convertPdfToImage env).probed = true ∧
        (convertPdfToImage env).usedNumPages = some m) ∧
    (∀ n, dv.numPages = some n → 2 ≤ n →
      (convertPdfToImage env).probed = false ∧
        (convertPdfToImage env).usedNumPages = some n) := by
  have hm1 : ¬ m < 1 := by omega
  refine ⟨?_, ?_, ?_⟩
  · intro hn
    simp [convertPdfToImage, hv, hu, hp, hn, hm1, rasterPages_probed,
      rasterPages_used]
  · intro hn
    simp [convertPdfToImage, hv, hu, hp, hn, hm1, rasterPages_probed,
      rasterPages_used]
  · intro n hn h2
    have h0 : (n == 0) = false := by simp; omega
    have h1 : (n == 1) = false := by simp; omega
    simp [convertPdfToImage, hv, hu, hp, hn, h0, h1, rasterPages_probed,
      rasterPages_used]

/-- C10 witness: with stored count 1 the probe's 4 pages are used; with
stored count 3 the probe is skipped and 3 is used. -/
theorem convertPdfToImage_reprobes_witness :
    ((convertPdfToImage storedOneEnv).probed = true ∧
      (convertPdfToImage storedOneEnv).usedNumPages = some 4) ∧
    ((convertPdfToImage storedThreeEnv).probed = false ∧
      (convertPdfToImage storedThreeEnv).usedNumPages = some 3) :=
  ⟨(convertPdfToImage_reprobes storedOneEnv ⟨"f", "s", some 1⟩ "u" 4
      rfl rfl rfl (by decide)).2.1 rfl,
    (convertPdfToImage_reprobes storedThreeEnv ⟨"f", "s", some 3⟩ "u" 4
      rfl rfl rfl (by decide)).2.2 3 rfl (by decide)⟩

/-- The upload-and-rasterize flow is the per-row composite mapped over
the new row consed onto the old table. -/
theorem uploadAndRasterize_eq (st : List DocVersion) (docId newId n : Nat) :
    uploadAndRasterize st docId newId n =
      demoteRowByVN docId (latestVersionNumber st docId + 1)
          (finalizeRow newId n
            (demoteRowById docId newId
              (demoteRowById docId newId
                ⟨newId, docId, latestVersionNumber st docId + 1, true, false,
                  none⟩)))
        :: st.map (fun w =>
            demoteRowByVN docId (latestVersionNumber st docId + 1)
              (finalizeRow newId n
                (demoteRowById docId newId (demoteRowById docId newId w)))) := by
  unfold uploadAndRasterize demoteOthersById finalizeRaster
    demoteOthersByVersionNumber
  have hcond : ((latestVersionNumber st docId + 1) != 0) = true := by simp
  simp [hcond, List.map_map, Function.comp]

/-- C5: after a successful rasterization run completes the upload flow,
exactly one version of the document is primary, namely the
just-rasterized one: filtering the resulting table for primary versions
of the document yields exactly the new, finalized row (provided the new
row id is fresh), so `countPrimary` is 1. -/
theorem uploadAndRasterize_primary_unique (st : List DocVersion)
    (docId newId n : Nat) (hfresh : ∀ w ∈ st, w.id ≠ newId) :
    (uploadAndRasterize st docId newId n).filter
        (fun v => v.documentId == docId && v.isPrimary)
      = [⟨newId, docId, latestVersionNumber st docId + 1, true, true, some n⟩] ∧
    countPrimary (uploadAndRasterize st docId newId n) docId = 1 := by
  have hfilter : (uploadAndRasterize st docId newId n).filter
      (fun v => v.documentId == docId && v.isPrimary)
      = [⟨newId, docId, latestVersionNumber st docId + 1, true, true, some n⟩] := by
    rw [uploadAndRasterize_eq, newRow_spec]
    rw [List.filter_cons_of_pos (by simp)]
    have hnil : (st.map (fun w =>
        demoteRowByVN docId (latestVersionNumber st docId + 1)
          (finalizeRow newId n
            (demoteRowById docId newId (demoteRowById docId newId w))))).filter
        (fun v => v.documentId == docId && v.isPrimary) = [] := by
      rw [List.filter_eq_nil_iff]
      intro a ha
      rcases List.mem_map.mp ha with ⟨w, hw, rfl⟩
      simp [oldRow_not_primary docId newId (latestVersionNumber st docId + 1) n
        w (hfresh w hw)]
    rw [hnil]
  refine ⟨hfilter, ?_⟩
  unfold countPrimary
  rw [List.countP_eq_length_filter, hfilter]
  rfl

/-- C5 witness: on a table with two versions of document 7 and one of
document 8, the flow for new id 5 leaves exactly one primary version of
document 7. -/
theorem uploadAndRasterize_primary_unique_witness :
    countPrimary (uploadAndRasterize demoSt 7 5 4) 7 = 1 :=
  (uploadAndRasterize_primary_unique demoSt 7 5 4 (by decide)).2

end Papermark
